import Mathlib

/-!
Shallow embedding of the devflow transactional consistency engine
(`src/lib/actions/question.action.ts`, `interaction.action.ts`,
`collection.action.ts`) and proofs about its claims.

Collections are modelled as Lean lists of structures; Mongo `_id`s are
natural numbers drawn from a `nextId` counter carried in the store; the
multi-document transaction always commits unless the code path throws,
exactly as in the source (errors returned as values do not abort).
-/

namespace DevFlow

/-- Vote kinds, source string field `voteType ∈ {"upvote","downvote"}`. -/
inductive VoteType
  | upvote
  | downvote
deriving DecidableEq

/-- Polymorphic vote/interaction target, source `targetType ∈ {"question","answer"}`. -/
inductive TargetType
  | question
  | answer
deriving DecidableEq

/-- A `Vote` document: unique `_id`, author identity, target id/kind, vote kind. -/
structure Vote where
  id : Nat
  author : Nat
  actionId : Nat
  actionType : TargetType
  voteType : VoteType
deriving DecidableEq

/-- Tag names and free text are lists of characters (JS strings). -/
abbrev Name := List Char

/-- A `Question` document with the fields the engine reads or writes. -/
structure QuestionDoc where
  id : Nat
  title : Name
  content : Name
  author : Nat
  tags : List Nat
  upvotes : Int
  downvotes : Int
  views : Int
  answers : Nat
  createdAt : Nat
deriving DecidableEq

/-- An `Answer` document (id, parent question, vote counters). -/
structure AnswerDoc where
  id : Nat
  question : Nat
  upvotes : Int
  downvotes : Int
deriving DecidableEq

/-- A `Collection` (bookmark) document: (author, question) reference. -/
structure CollectionDoc where
  id : Nat
  author : Nat
  question : Nat
deriving DecidableEq

/-- A `TagQuestion` junction document: (tag id, question id). -/
structure TagQuestionDoc where
  tag : Nat
  question : Nat
deriving DecidableEq

/-- A `Tag` document: id, name, `questions` reference counter. -/
structure TagDoc where
  id : Nat
  name : Name
  questions : Int
deriving DecidableEq

/-- A `User` document: id and reputation integer. -/
structure UserDoc where
  id : Nat
  reputation : Int
deriving DecidableEq

/-- Interaction action kinds recorded in the interaction log. -/
inductive InteractionAction
  | view
  | upvote
  | downvote
  | post
  | remove
  | bookmark
deriving DecidableEq

/-- An `Interaction` log document. -/
structure InteractionDoc where
  id : Nat
  user : Nat
  action : InteractionAction
  actionId : Nat
  actionType : TargetType
  createdAt : Nat
deriving DecidableEq

/-- The whole store: one list per Mongo collection plus the id counter. -/
structure DB where
  questions : List QuestionDoc
  answers : List AnswerDoc
  votes : List Vote
  collections : List CollectionDoc
  tagQuestions : List TagQuestionDoc
  tags : List TagDoc
  users : List UserDoc
  interactions : List InteractionDoc
  nextId : Nat
deriving DecidableEq

/-! ## Vote Toggle Engine (`createVote`, `updateVoteCount`) -/

/-- `$inc` of the field selected by `voteType` on a question document. -/
def incQuestionVotes (q : QuestionDoc) (voteType : VoteType) (change : Int) : QuestionDoc :=
  match voteType with
  | .upvote => { q with upvotes := q.upvotes + change }
  | .downvote => { q with downvotes := q.downvotes + change }

/-- `$inc` of the field selected by `voteType` on an answer document. -/
def incAnswerVotes (a : AnswerDoc) (voteType : VoteType) (change : Int) : AnswerDoc :=
  match voteType with
  | .upvote => { a with upvotes := a.upvotes + change }
  | .downvote => { a with downvotes := a.downvotes + change }

/-- `updateVoteCount`: `Model.findByIdAndUpdate(targetId, { $inc: { voteField: change } })`.
`none` models the `ErrorResponse` returned when no document matches `targetId`. -/
def updateVoteCount (db : DB) (targetId : Nat) (targetType : TargetType)
    (voteType : VoteType) (change : Int) : Option DB :=
  match targetType with
  | .question =>
    if db.questions.any (fun q => q.id = targetId) then
      let qs := db.questions.map fun q =>
        if q.id = targetId then incQuestionVotes q voteType change else q
      some { db with questions := qs }
    else none
  | .answer =>
    if db.answers.any (fun a => a.id = targetId) then
      let as1 := db.answers.map fun a =>
        if a.id = targetId then incAnswerVotes a voteType change else a
      some { db with answers := as1 }
    else none

/-- The caller `createVote` invokes `updateVoteCount` without awaiting or checking
its result, so a failure leaves the store as it was and execution continues. -/
def runVoteCount (db : DB) (targetId : Nat) (targetType : TargetType)
    (voteType : VoteType) (change : Int) : DB :=
  (updateVoteCount db targetId targetType voteType change).getD db

/-- `createVote`: the `Vote.findOne` filter includes `voteType`, then branches on
`existingVote.voteType === voteType` (create / remove / flip), mutating the vote
row and firing `updateVoteCount`, all before `commitTransaction`. -/
def createVote (db : DB) (userId targetId : Nat) (targetType : TargetType)
    (voteType : VoteType) : DB :=
  match db.votes.find? (fun v =>
      v.author = userId ∧ v.actionId = targetId ∧
      v.actionType = targetType ∧ v.voteType = voteType) with
  | some existingVote =>
    if existingVote.voteType = voteType then
      let db1 := { db with votes := db.votes.filter (fun v => v.id ≠ existingVote.id) }
      runVoteCount db1 targetId targetType voteType (-1)
    else
      let vs := db.votes.map fun v =>
        if v.id = existingVote.id then { v with voteType := voteType } else v
      let db1 := { db with votes := vs }
      runVoteCount db1 targetId targetType voteType 1
  | none =>
    let db1 := { db with
      votes := db.votes ++
        [{ id := db.nextId, author := userId, actionId := targetId,
           actionType := targetType, voteType := voteType }],
      nextId := db.nextId + 1 }
    runVoteCount db1 targetId targetType voteType 1

/-- Look a question up by `_id`. -/
def questionById (db : DB) (id : Nat) : Option QuestionDoc :=
  db.questions.find? (fun q => q.id = id)

/-- A store holding a single question (id 1, author 2) and nothing else. -/
def dbQ1 : DB :=
  { questions := [{ id := 1, title := [], content := [], author := 2, tags := [],
                    upvotes := 0, downvotes := 0, views := 0, answers := 0, createdAt := 0 }],
    answers := [], votes := [], collections := [], tagQuestions := [], tags := [],
    users := [], interactions := [], nextId := 100 }

/-- The empty store. -/
def dbEmpty : DB :=
  { questions := [], answers := [], votes := [], collections := [], tagQuestions := [],
    tags := [], users := [], interactions := [], nextId := 0 }

/-- State after user 7 upvotes question 1 and then requests a downvote on it. -/
def flipResult : DB :=
  createVote (createVote dbQ1 7 1 .question .upvote) 7 1 .question .downvote

/-- Claim C1: after user 7's completed createVote sequence upvote-then-downvote on
question 1, the store holds TWO Vote rows for the (author 7, target 1, question)
triple — the user ends up holding both an upvote and a downvote simultaneously,
because the `findOne` filter includes `voteType` and so never sees the
opposite-kind row. -/
theorem createVote_opposite_kind_leaves_two_rows :
    (flipResult.votes.filter (fun v =>
      v.author = 7 ∧ v.actionId = 1 ∧ v.actionType = TargetType.question)).length = 2 ∧
    (flipResult.votes.filter (fun v => v.voteType = VoteType.upvote)).length = 1 ∧
    (flipResult.votes.filter (fun v => v.voteType = VoteType.downvote)).length = 1 := by
  decide

/-- Claim C6: from the upvoted state, a downvote request leaves the downvote
counter at 1 and the upvote counter untouched at 1 (as the spec says), but it
does NOT update the existing Vote row's kind in place: the store ends with two
vote rows for the pair, not a single flipped row. -/
theorem createVote_flip_creates_second_row :
    (questionById flipResult 1).map (fun q => (q.upvotes, q.downvotes)) = some (1, 1) ∧
    flipResult.votes.length = 2 := by
  decide

/-- Claim C5: when the counter update fails (here: the vote's target id matches
no document, so `updateVoteCount` returns an error response), `createVote` still
commits the Vote-row change and the transaction is not aborted: the store ends
with one vote row and no counter contribution anywhere — counter drift. -/
theorem createVote_commits_despite_failed_count :
    ((createVote dbEmpty 7 1 .question .upvote).votes.length = 1) ∧
    (createVote dbEmpty 7 1 .question .upvote).questions = [] ∧
    (createVote dbEmpty 7 1 .question .upvote).answers = [] := by
  decide

/-! ### Same-kind toggling (claim C7) -/

/-- Effect of a (possibly failing, result-ignored) counter update on the
question collection alone. -/
def voteCountQuestions (qs : List QuestionDoc) (t : Nat) (tt : TargetType)
    (vt : VoteType) (c : Int) : List QuestionDoc :=
  match tt with
  | .question =>
    if qs.any (fun q => q.id = t) then
      qs.map fun q => if q.id = t then incQuestionVotes q vt c else q
    else qs
  | .answer => qs

/-- Effect of a (possibly failing, result-ignored) counter update on the
answer collection alone. -/
def voteCountAnswers (as1 : List AnswerDoc) (t : Nat) (tt : TargetType)
    (vt : VoteType) (c : Int) : List AnswerDoc :=
  match tt with
  | .question => as1
  | .answer =>
    if as1.any (fun a => a.id = t) then
      as1.map fun a => if a.id = t then incAnswerVotes a vt c else a
    else as1

/-- `runVoteCount` touches exactly the question and answer collections,
each through a function of that collection alone. -/
theorem runVoteCount_eq (db : DB) (t : Nat) (tt : TargetType) (vt : VoteType) (c : Int) :
    runVoteCount db t tt vt c =
      { db with questions := voteCountQuestions db.questions t tt vt c,
                answers := voteCountAnswers db.answers t tt vt c } := by
  cases tt <;> simp only [runVoteCount, updateVoteCount, voteCountQuestions, voteCountAnswers] <;>
    split <;> rfl

/-- The field increment selected by a vote kind cancels against its negation. -/
theorem incQuestionVotes_cancel (q : QuestionDoc) (vt : VoteType) (c : Int) :
    incQuestionVotes (incQuestionVotes q vt c) vt (-c) = q := by
  cases vt <;> simp [incQuestionVotes]

theorem incAnswerVotes_cancel (a : AnswerDoc) (vt : VoteType) (c : Int) :
    incAnswerVotes (incAnswerVotes a vt c) vt (-c) = a := by
  cases vt <;> simp [incAnswerVotes]

theorem incQuestionVotes_id (q : QuestionDoc) (vt : VoteType) (c : Int) :
    (incQuestionVotes q vt c).id = q.id := by
  cases vt <;> rfl

theorem incAnswerVotes_id (a : AnswerDoc) (vt : VoteType) (c : Int) :
    (incAnswerVotes a vt c).id = a.id := by
  cases vt <;> rfl
/-- A `+c` update on the question collection cancels against a `-c` one. -/
theorem voteCountQuestions_cancel (qs : List QuestionDoc) (t : Nat) (tt : TargetType)
    (vt : VoteType) (c : Int) :
    voteCountQuestions (voteCountQuestions qs t tt vt c) t tt vt (-c) = qs := by
  cases tt
  case question =>
    simp only [voteCountQuestions]
    by_cases h : qs.any (fun q => q.id = t)
    · have hmap : (qs.map fun q =>
          if q.id = t then incQuestionVotes q vt c else q).any (fun q => q.id = t) = true := by
        rw [List.any_map]
        refine (List.any_eq_true).mpr ?_
        obtain ⟨q, hq, hqt⟩ := List.any_eq_true.mp h
        refine ⟨q, hq, ?_⟩
        simp only [Function.comp]
        split
        · simpa [incQuestionVotes_id] using hqt
        · exact hqt
      simp only [h, if_true, hmap, List.map_map]
      have hpoint : (qs.map fun q =>
          (fun q => if q.id = t then incQuestionVotes q vt (-c) else q)
            ((fun q => if q.id = t then incQuestionVotes q vt c else q) q)) = qs := by
        have hcong : (qs.map fun q =>
            (fun q => if q.id = t then incQuestionVotes q vt (-c) else q)
              ((fun q => if q.id = t then incQuestionVotes q vt c else q) q)) =
            qs.map (fun q => q) := by
          refine List.map_congr_left ?_
          intro q _
          by_cases hq : q.id = t
          · simp [hq, incQuestionVotes_id, incQuestionVotes_cancel]
          · simp [hq]
        rw [hcong, List.map_id']
      rw [show ((fun q => if q.id = t then incQuestionVotes q vt (-c) else q) ∘
            (fun q => if q.id = t then incQuestionVotes q vt c else q)) =
          (fun q => (fun q => if q.id = t then incQuestionVotes q vt (-c) else q)
            ((fun q => if q.id = t then incQuestionVotes q vt c else q) q)) from rfl, hpoint]
    · simp [h]
  case answer => rfl

/-- A `+c` update on the answer collection cancels against a `-c` one. -/
theorem voteCountAnswers_cancel (as1 : List AnswerDoc) (t : Nat) (tt : TargetType)
    (vt : VoteType) (c : Int) :
    voteCountAnswers (voteCountAnswers as1 t tt vt c) t tt vt (-c) = as1 := by
  cases tt
  case question => rfl
  case answer =>
    simp only [voteCountAnswers]
    by_cases h : as1.any (fun a => a.id = t)
    · have hmap : (as1.map fun a =>
          if a.id = t then incAnswerVotes a vt c else a).any (fun a => a.id = t) = true := by
        rw [List.any_map]
        refine (List.any_eq_true).mpr ?_
        obtain ⟨a, ha, hat⟩ := List.any_eq_true.mp h
        refine ⟨a, ha, ?_⟩
        simp only [Function.comp]
        split
        · simpa [incAnswerVotes_id] using hat
        · exact hat
      simp only [h, if_true, hmap, List.map_map]
      have hpoint : (as1.map fun a =>
          (fun a => if a.id = t then incAnswerVotes a vt (-c) else a)
            ((fun a => if a.id = t then incAnswerVotes a vt c else a) a)) = as1 := by
        have hcong : (as1.map fun a =>
            (fun a => if a.id = t then incAnswerVotes a vt (-c) else a)
              ((fun a => if a.id = t then incAnswerVotes a vt c else a) a)) =
            as1.map (fun a => a) := by
          refine List.map_congr_left ?_
          intro a _
          by_cases ha : a.id = t
          · simp [ha, incAnswerVotes_id, incAnswerVotes_cancel]
          · simp [ha]
        rw [hcong, List.map_id']
      rw [show ((fun a => if a.id = t then incAnswerVotes a vt (-c) else a) ∘
            (fun a => if a.id = t then incAnswerVotes a vt c else a)) =
          (fun a => (fun a => if a.id = t then incAnswerVotes a vt (-c) else a)
            ((fun a => if a.id = t then incAnswerVotes a vt c else a) a)) from rfl, hpoint]
    · simp [h]

/-- Claim C7: starting from a no-vote state for (user, target), two successive
same-kind createVote requests return the store to its initial votes and
counters: the row created by the first request is deleted by the second and the
counter deltas (+1 then -1) cancel, leaving only the consumed document id.
`hfresh` says the id counter is ahead of every existing vote id (true of every
store reachable from an empty one); `hnovote` is the no-vote state. -/
theorem createVote_same_kind_twice_idempotent (db : DB) (u t : Nat) (tt : TargetType)
    (vt : VoteType)
    (hfresh : ∀ v ∈ db.votes, v.id < db.nextId)
    (hnovote : ∀ v ∈ db.votes, ¬ (v.author = u ∧ v.actionId = t ∧ v.actionType = tt)) :
    createVote (createVote db u t tt vt) u t tt vt = { db with nextId := db.nextId + 1 } := by
  have hfind : db.votes.find? (fun v => decide (v.author = u ∧ v.actionId = t ∧
      v.actionType = tt ∧ v.voteType = vt)) = none := by
    refine List.find?_eq_none.mpr ?_
    intro v hv
    simp only [decide_eq_true_eq]
    rintro ⟨h1, h2, h3, -⟩
    exact hnovote v hv ⟨h1, h2, h3⟩
  have hfind2 : (db.votes ++ [(⟨db.nextId, u, t, tt, vt⟩ : Vote)]).find?
      (fun v => decide (v.author = u ∧
      v.actionId = t ∧ v.actionType = tt ∧ v.voteType = vt)) =
      some (⟨db.nextId, u, t, tt, vt⟩ : Vote) := by
    rw [List.find?_append, hfind]
    simp
  have hfilter : (db.votes ++ [(⟨db.nextId, u, t, tt, vt⟩ : Vote)]).filter
        (fun v => decide (v.id ≠ db.nextId)) = db.votes := by
    rw [List.filter_append]
    have h1 : db.votes.filter (fun v => decide (v.id ≠ db.nextId)) = db.votes := by
      refine List.filter_eq_self.mpr ?_
      intro v hv
      simp only [decide_eq_true_eq]
      exact Nat.ne_of_lt (hfresh v hv)
    rw [h1]
    simp
  simp only [createVote, hfind, runVoteCount_eq, hfind2, hfilter]
  simp only [if_pos rfl, runVoteCount_eq, voteCountQuestions_cancel, voteCountAnswers_cancel,
    hfilter]
  simp

/-- Concrete instance of claim C7: on the one-question store, user 7 upvoting
question 1 twice restores the store (only the id counter advanced). -/
theorem createVote_same_kind_twice_idempotent_witness :
    (∀ v ∈ dbQ1.votes, v.id < dbQ1.nextId) ∧
    (∀ v ∈ dbQ1.votes, ¬ (v.author = 7 ∧ v.actionId = 1 ∧ v.actionType = TargetType.question)) ∧
    createVote (createVote dbQ1 7 1 .question .upvote) 7 1 .question .upvote =
      { dbQ1 with nextId := dbQ1.nextId + 1 } :=
  ⟨by decide, by decide,
    createVote_same_kind_twice_idempotent dbQ1 7 1 .question .upvote (by decide) (by decide)⟩

/-! ## Reputation Ledger (`interaction.action.ts`, `updateReputation`) -/

/-- The switch in `updateReputation`: `(performerPoints, authorPoints)` for an
action kind and target kind; both start at 0 and the switch has no case for
view/bookmark. -/
def repPoints (action : InteractionAction) (actionType : TargetType) : Int × Int :=
  match action with
  | .upvote => (2, 10)
  | .downvote => (-1, -2)
  | .post => (0, if actionType = .question then 5 else 10)
  | .remove => (0, if actionType = .question then -5 else -10)
  | _ => (0, 0)

/-- `User.findByIdAndUpdate(uid, { $inc: { reputation: delta } })`. -/
def incReputation (users : List UserDoc) (uid : Nat) (delta : Int) : List UserDoc :=
  users.map fun x => if x.id = uid then { x with reputation := x.reputation + delta } else x

/-- `updateReputation`: when performer and author coincide, one update of
`authorPoints` alone; otherwise a bulk write of both `$inc`s. -/
def updateReputation (users : List UserDoc) (action : InteractionAction)
    (actionType : TargetType) (performerId authorId : Nat) : List UserDoc :=
  let p := repPoints action actionType
  if performerId = authorId then
    incReputation users performerId p.2
  else
    incReputation (incReputation users performerId p.1) authorId p.2

/-- Claim C2, counterexample: a self-upvote applies a delta of 10 — the owner
delta alone — not the sum 2 + 10 = 12 of actor and owner deltas the claim
prescribes, so the claim is false at this input. -/
theorem updateReputation_self_not_sum :
    (updateReputation [⟨0, 0⟩] .upvote .question 0 0).map UserDoc.reputation = [10] ∧
    (repPoints .upvote .question).1 + (repPoints .upvote .question).2 = 12 ∧
    ¬ ((updateReputation [⟨0, 0⟩] .upvote .question 0 0).map UserDoc.reputation
        = [0 + ((repPoints .upvote .question).1 + (repPoints .upvote .question).2)]) := by
  decide

/-- Unfolding of `incReputation` on a cons cell. -/
theorem incReputation_cons (x : UserDoc) (xs : List UserDoc) (u : Nat) (d : Int) :
    incReputation (x :: xs) u d =
      (if x.id = u then { x with reputation := x.reputation + d } else x) ::
        incReputation xs u d := rfl

/-- `incReputation` is the identity on a list not containing the id. -/
theorem incReputation_not_mem (xs : List UserDoc) (u : Nat) (d : Int)
    (h : ∀ y ∈ xs, y.id ≠ u) : incReputation xs u d = xs := by
  calc incReputation xs u d = xs.map (fun y => y) :=
        List.map_congr_left (fun y hy => by simp [h y hy])
    _ = xs := List.map_id' xs

/-- One `$inc` on a uniquely-occurring id moves the reputation total by exactly
that delta. -/
theorem incReputation_sum (users : List UserDoc) (u : Nat) (d : Int)
    (hu : users.countP (fun x => x.id = u) = 1) :
    ((incReputation users u d).map UserDoc.reputation).sum
      = (users.map UserDoc.reputation).sum + d := by
  induction users with
  | nil => simp at hu
  | cons x xs ih =>
    rw [incReputation_cons]
    by_cases hx : x.id = u
    · have hnone : ∀ y ∈ xs, y.id ≠ u := by
        simp only [List.countP_cons, hx] at hu
        simp at hu
        exact hu
      rw [incReputation_not_mem xs u d hnone]
      simp only [if_pos hx, List.map_cons, List.sum_cons]
      ring
    · have hone : xs.countP (fun x => x.id = u) = 1 := by
        simp only [List.countP_cons, hx] at hu
        simp at hu
        omega
      rw [if_neg hx]
      simp only [List.map_cons, List.sum_cons, ih hone]
      ring

/-- Claim C2 (amended): when actor and content owner coincide, exactly one
ledger update occurs on that single account and its delta is the OWNER delta of
the action kind (the actor delta is dropped): the reputation total moves by
exactly `(repPoints a tt).2`, no other account changes, and the set of accounts
is unchanged. -/
theorem updateReputation_self_single_update (users : List UserDoc)
    (a : InteractionAction) (tt : TargetType) (u : Nat)
    (hu : users.countP (fun x => x.id = u) = 1) :
    ((updateReputation users a tt u u).map UserDoc.reputation).sum
      = (users.map UserDoc.reputation).sum + (repPoints a tt).2 ∧
    (∀ x ∈ users, x.id ≠ u → x ∈ updateReputation users a tt u u) ∧
    (updateReputation users a tt u u).map UserDoc.id = users.map UserDoc.id := by
  have hself : updateReputation users a tt u u = incReputation users u (repPoints a tt).2 := by
    simp [updateReputation]
  refine ⟨?_, ?_, ?_⟩
  · rw [hself]
    exact incReputation_sum users u (repPoints a tt).2 hu
  · intro x hx hxne
    rw [hself]
    simp only [incReputation]
    refine List.mem_map.mpr ⟨x, hx, ?_⟩
    simp [hxne]
  · rw [hself]
    simp only [incReputation, List.map_map]
    refine List.map_congr_left ?_
    intro x _
    by_cases hx : x.id = u <;> simp [Function.comp, hx]

/-- Concrete instance of the amended claim C2: a self-downvote on an answer by
user 0 (present once among two accounts) moves the total by the owner delta -2
and leaves user 1 untouched. -/
theorem updateReputation_self_single_update_witness :
    ([(⟨0, 5⟩ : UserDoc), ⟨1, 3⟩].countP (fun x => x.id = 0) = 1) ∧
    (((updateReputation [⟨0, 5⟩, ⟨1, 3⟩] .downvote .answer 0 0).map UserDoc.reputation).sum
      = ([(⟨0, 5⟩ : UserDoc), ⟨1, 3⟩].map UserDoc.reputation).sum + (repPoints .downvote .answer).2 ∧
    (∀ x ∈ [(⟨0, 5⟩ : UserDoc), ⟨1, 3⟩], x.id ≠ 0 →
        x ∈ updateReputation [⟨0, 5⟩, ⟨1, 3⟩] .downvote .answer 0 0) ∧
    (updateReputation [⟨0, 5⟩, ⟨1, 3⟩] .downvote .answer 0 0).map UserDoc.id
      = [(⟨0, 5⟩ : UserDoc), ⟨1, 3⟩].map UserDoc.id) :=
  ⟨by decide,
    updateReputation_self_single_update [⟨0, 5⟩, ⟨1, 3⟩] .downvote .answer 0 (by decide)⟩

/-! ## Error taxonomy and result boundary -/

/-- Expected failure kinds thrown by the engine (`http-errors`). -/
inductive ActionError
  | notFound
  | unauthorized
deriving DecidableEq

/-- How a public operation's outcome crosses the external boundary: `ok` and
`caught` are the uniform discriminated result (`{success, data}` resp.
`handleError`'s `ErrorResponse`); `raised` is an exception that escaped the
handler and crosses the boundary as a raised fault. -/
inductive Outcome (α : Type)
  | ok : α → Outcome α
  | caught : ActionError → Outcome α
  | raised : ActionError → Outcome α
deriving DecidableEq

/-! ## Content Lifecycle Manager: `deleteQuestion` -/

/-- `deleteQuestion`: lookup and authorization, then the cascade inside one
transaction; every thrown error is caught, aborts and is returned uniformly.
The answers' votes are deleted by `Vote.deleteMany({ _id: { $in: answerIds } })`
— matching the votes' own `_id`s against the answer ids — exactly as in the
source. -/
def deleteQuestion (db : DB) (questionId userId : Nat) : Outcome DB :=
  match db.questions.find? (fun q => q.id = questionId) with
  | none => .caught .notFound
  | some question =>
    if userId ≠ question.author then .caught .unauthorized
    else
      let colls := db.collections.filter (fun c => c.question ≠ questionId)
      let db1 : DB := { db with collections := colls }
      let tqs := db1.tagQuestions.filter (fun tq => tq.question ≠ questionId)
      let db2 : DB := { db1 with tagQuestions := tqs }
      let db3 : DB := if question.tags.length > 0 then
          { db2 with tags := db2.tags.map fun tg =>
            if question.tags.contains tg.id then { tg with questions := tg.questions - 1 }
            else tg }
        else db2
      let db4 : DB := { db3 with votes := db3.votes.filter fun v =>
        !(decide (v.actionId = questionId) && decide (v.actionType = TargetType.question)) }
      let answers : List AnswerDoc := db4.answers.filter (fun a => a.question = questionId)
      let db5 : DB := if answers.length > 0 then
          { db4 with
            answers := db4.answers.filter (fun a => a.question ≠ questionId),
            votes := db4.votes.filter fun v => !((answers.map AnswerDoc.id).contains v.id) }
        else db4
      .ok { db5 with questions := db5.questions.filter (fun q => q.id ≠ questionId) }

/-- A store with one question (id 1, author 10), one answer (id 2) on it, and
one vote (id 3, by user 11) on that answer. -/
def dbCascade : DB :=
  { questions := [{ id := 1, title := [], content := [], author := 10, tags := [],
                    upvotes := 0, downvotes := 0, views := 0, answers := 1, createdAt := 0 }],
    answers := [{ id := 2, question := 1, upvotes := 1, downvotes := 0 }],
    votes := [⟨3, 11, 2, .answer, .upvote⟩],
    collections := [], tagQuestions := [], tags := [], users := [], interactions := [],
    nextId := 50 }

/-- Claim C3: deleting question 1 succeeds and removes the question and its
answer, but the vote on the deleted answer SURVIVES (the cascade deletes votes
whose own `_id` is among the answer ids, and 3 is not 2) — a partial cascade:
neither zero surviving references nor no change at all. -/
theorem deleteQuestion_leaves_answer_votes :
    deleteQuestion dbCascade 1 10 =
      Outcome.ok { dbCascade with questions := [], answers := [] } ∧
    ({ dbCascade with questions := [], answers := [] } : DB).votes =
      [⟨3, 11, 2, TargetType.answer, VoteType.upvote⟩] := by
  decide

/-! ## Tag Lifecycle Manager: `editQuestion`'s tag diff -/

/-- JS `toLowerCase` on a string. -/
def lowerName (n : Name) : Name := n.map Char.toLower

/-- JS `String.prototype.includes`: substring containment. -/
def nameIncludes (s sub : Name) : Bool :=
  match s with
  | [] => sub.isEmpty
  | c :: t => sub.isPrefixOf (c :: t) || nameIncludes t sub

/-- `editQuestion`'s additions: requested names for which no existing tag's
lowercased name CONTAINS the lowercased requested name
(`t.name.toLowerCase().includes(tag.toLowerCase())`). -/
def tagsToAdd (questionTags : List TagDoc) (tags : List Name) : List Name :=
  tags.filter fun tag =>
    !(questionTags.any fun t => nameIncludes (lowerName t.name) (lowerName tag))

/-- `editQuestion`'s removals: existing tags whose lowercased name EQUALS no
lowercased requested name (`t.toLowerCase() === tag.name.toLowerCase()`). -/
def tagsToRemove (questionTags : List TagDoc) (tags : List Name) : List TagDoc :=
  questionTags.filter fun t =>
    !(tags.any fun r => decide (lowerName r = lowerName t.name))

/-- The existing tag "JavaScript" (id 5, reference count 3). -/
def jsTag : TagDoc := { id := 5, name := "JavaScript".toList, questions := 3 }

/-- Claim C4: with existing tags ["JavaScript"] and requested names ["java"],
"java" has no case-insensitive equality match among the existing names, yet the
additions are EMPTY (because "javascript" contains "java" as a substring) while
"JavaScript" is removed — the requested tag is neither added nor kept, refuting
the claim that additions are exactly the unmatched requested names. -/
theorem tagDiff_substring_counterexample :
    tagsToAdd [jsTag] ["java".toList] = [] ∧
    tagsToRemove [jsTag] ["java".toList] = [jsTag] ∧
    lowerName jsTag.name ≠ lowerName "java".toList := by
  decide

/-! ## Collections: `toggleSaveQuestion` -/

/-- `toggleSaveQuestion`: the question lookup and its `NotFoundError` throw sit
BEFORE the `try` block, so that failure escapes as a raised fault; the
find-then-delete / create toggle runs inside `try` and returns uniform results. -/
def toggleSaveQuestion (db : DB) (questionId userId : Nat) : Outcome (DB × Bool) :=
  match db.questions.find? (fun q => q.id = questionId) with
  | none => .raised .notFound
  | some _ =>
    match db.collections.find? (fun c => c.question = questionId ∧ c.author = userId) with
    | some collection =>
      .ok ({ db with collections := db.collections.filter (fun c => c.id ≠ collection.id) },
        false)
    | none =>
      let coll : CollectionDoc := { id := db.nextId, author := userId, question := questionId }
      .ok ({ db with collections := db.collections ++ [coll], nextId := db.nextId + 1 }, true)

/-- Claim C8: invoked with a question id matching no question, the operation
does NOT return the uniform failure result — the `NotFoundError` is raised
before the `try`/`catch` and crosses the external boundary as a fault. -/
theorem toggleSaveQuestion_raises_not_found :
    toggleSaveQuestion dbEmpty 1 7 = Outcome.raised ActionError.notFound := by
  decide

/-! ## Content Lifecycle Manager: `getQuestions` (list/search) -/

/-- The `filter` request parameter of `getQuestions`; `other` is any value
hitting the `default` switch case ("recommended" delegates to the
Recommendation Engine and is modelled separately). -/
inductive QuestionFilter
  | newest
  | unanswered
  | popular
  | other
deriving DecidableEq

/-- The optional text query: `$regex` with option `"i"` on title or content,
i.e. case-insensitive substring match. -/
def questionMatchesQuery (q : QuestionDoc) (query : Option Name) : Bool :=
  match query with
  | none => true
  | some qs => nameIncludes (lowerName q.title) (lowerName qs) ||
      nameIncludes (lowerName q.content) (lowerName qs)

/-- `{ createdAt: -1, _id: 1 }`: newest first, ties broken by ascending id. -/
def newestFirstLe (a b : QuestionDoc) : Bool :=
  decide (b.createdAt < a.createdAt) ||
    (decide (a.createdAt = b.createdAt) && decide (a.id ≤ b.id))

/-- `{ upvotes: -1, _id: 1 }`: most upvoted first, ties broken by ascending id. -/
def popularLe (a b : QuestionDoc) : Bool :=
  decide (b.upvotes < a.upvotes) ||
    (decide (a.upvotes = b.upvotes) && decide (a.id ≤ b.id))

/-- Sort criteria selected by the switch on `filter`. -/
def sortFor : QuestionFilter → (QuestionDoc → QuestionDoc → Bool)
  | .popular => popularLe
  | _ => newestFirstLe

/-- The Mongo filter document built by `getQuestions` (text query, plus
`answers = 0` for the `unanswered` filter), applied to the question store. -/
def filteredQuestions (db : DB) (query : Option Name) (filter : QuestionFilter) :
    List QuestionDoc :=
  let base := db.questions.filter (fun q => questionMatchesQuery q query)
  match filter with
  | .unanswered => base.filter (fun q => q.answers = 0)
  | _ => base

/-- `getQuestions`: `skip = (page-1)*pageSize`, `limit = pageSize`,
`countDocuments` before pagination, and `isNext := total > skip + returned`. -/
def getQuestions (db : DB) (page pageSize : Nat) (query : Option Name)
    (filter : QuestionFilter) : List QuestionDoc × Bool :=
  let skip := (page - 1) * pageSize
  let questions :=
    (((filteredQuestions db query filter).mergeSort (sortFor filter)).drop skip).take pageSize
  (questions, decide ((filteredQuestions db query filter).length > skip + questions.length))

/-- In a list whose `f`-image has no duplicates, a member of the first `n`
elements and a member of the rest never share their `f`-value. -/
theorem ne_of_mem_take_mem_drop {α β : Type} (f : α → β) (l : List α) (n : Nat)
    (h : (l.map f).Nodup) {a b : α} (ha : a ∈ l.take n) (hb : b ∈ l.drop n) :
    f a ≠ f b := by
  have hsplit : l.take n ++ l.drop n = l := List.take_append_drop n l
  rw [← hsplit, List.map_append] at h
  have hdis := (List.nodup_append.mp h).2.2
  intro he
  exact hdis (List.mem_map_of_mem f ha) (he ▸ List.mem_map_of_mem f hb)

/-- The matching set is a sublist of the question store. -/
theorem filteredQuestions_sublist (db : DB) (query : Option Name) (filter : QuestionFilter) :
    (filteredQuestions db query filter).Sublist db.questions := by
  cases filter <;> simp only [filteredQuestions] <;>
    first
      | exact List.filter_sublist _
      | exact (List.filter_sublist _).trans (List.filter_sublist _)

/-- The sorted matching set still has pairwise-distinct ids. -/
theorem filteredQuestions_sorted_nodup (db : DB) (query : Option Name)
    (filter : QuestionFilter) (hids : (db.questions.map QuestionDoc.id).Nodup) :
    (((filteredQuestions db query filter).mergeSort (sortFor filter)).map
      QuestionDoc.id).Nodup := by
  have h1 : ((filteredQuestions db query filter).map QuestionDoc.id).Nodup :=
    ((filteredQuestions_sublist db query filter).map QuestionDoc.id).nodup hids
  exact (((List.mergeSort_perm (filteredQuestions db query filter)
    (sortFor filter)).map QuestionDoc.id).symm.nodup h1)

theorem newestFirstLe_trans (a b c : QuestionDoc)
    (hab : newestFirstLe a b = true) (hbc : newestFirstLe b c = true) :
    newestFirstLe a c = true := by
  simp only [newestFirstLe, Bool.or_eq_true, Bool.and_eq_true, decide_eq_true_eq] at *
  omega

theorem newestFirstLe_total (a b : QuestionDoc) :
    (newestFirstLe a b || newestFirstLe b a) = true := by
  simp only [newestFirstLe, Bool.or_eq_true, Bool.and_eq_true, decide_eq_true_eq]
  omega

theorem popularLe_trans (a b c : QuestionDoc)
    (hab : popularLe a b = true) (hbc : popularLe b c = true) : popularLe a c = true := by
  simp only [popularLe, Bool.or_eq_true, Bool.and_eq_true, decide_eq_true_eq] at *
  omega

theorem popularLe_total (a b : QuestionDoc) :
    (popularLe a b || popularLe b a) = true := by
  simp only [popularLe, Bool.or_eq_true, Bool.and_eq_true, decide_eq_true_eq]
  omega

/-- Claim C9: `getQuestions` pages with `skip = (page-1)*pageSize` and
`limit = pageSize` over the matching questions: (1) when ids are pairwise
distinct, consecutive pages share no identifiers (in particular page 2 and
page 1 at pageSize 10); (2) the next-page flag is false exactly when
`totalMatching ≤ page*pageSize`; (3) away from the `popular` filter, the
returned page is sorted newest-first with ascending-id tie-break. -/
theorem getQuestions_pagination (db : DB) (query : Option Name) (filter : QuestionFilter)
    (page pageSize : Nat) (hpage : 1 ≤ page)
    (hids : (db.questions.map QuestionDoc.id).Nodup) :
    (∀ a ∈ (getQuestions db page pageSize query filter).1,
       ∀ b ∈ (getQuestions db (page + 1) pageSize query filter).1, a.id ≠ b.id) ∧
    ((getQuestions db page pageSize query filter).2 = false ↔
       (filteredQuestions db query filter).length ≤ page * pageSize) ∧
    (filter ≠ QuestionFilter.popular →
       List.Sorted (fun a b => newestFirstLe a b = true)
         (getQuestions db page pageSize query filter).1) := by
  have harith : (page - 1) * pageSize + pageSize = page * pageSize := by
    cases page with
    | zero => omega
    | succ n => simp [Nat.succ_mul]
  refine ⟨?_, ?_, ?_⟩
  · intro a ha b hb
    simp only [getQuestions] at ha hb
    have hnodup := filteredQuestions_sorted_nodup db query filter hids
    have hb1 : b ∈ (((filteredQuestions db query filter).mergeSort (sortFor filter)).drop
        ((page - 1) * pageSize)).drop pageSize := by
      rw [List.drop_drop, harith]
      have := List.mem_of_mem_take hb
      simpa [Nat.add_sub_cancel] using this
    refine ne_of_mem_take_mem_drop QuestionDoc.id
      (((filteredQuestions db query filter).mergeSort (sortFor filter)).drop
        ((page - 1) * pageSize)) pageSize ?_ ha hb1
    exact ((List.drop_sublist _ _).map QuestionDoc.id).nodup hnodup
  · simp only [getQuestions, decide_eq_false_iff_not, not_lt, List.length_take,
      List.length_drop, List.length_mergeSort]
    omega
  · intro hnp
    have hle : sortFor filter = newestFirstLe := by
      cases filter <;> first | rfl | exact absurd rfl hnp
    simp only [getQuestions, hle]
    have hsorted : List.Pairwise (fun a b => newestFirstLe a b = true)
        ((filteredQuestions db query filter).mergeSort newestFirstLe) :=
      List.sorted_mergeSort newestFirstLe_trans newestFirstLe_total _
    exact hsorted.sublist ((List.take_sublist _ _).trans (List.drop_sublist _ _))

/-- A store with two questions carrying distinct ids and timestamps. -/
def dbPag : DB :=
  { questions := [{ id := 1, title := [], content := [], author := 2, tags := [],
                    upvotes := 0, downvotes := 0, views := 0, answers := 0, createdAt := 5 },
                  { id := 2, title := [], content := [], author := 3, tags := [],
                    upvotes := 1, downvotes := 0, views := 0, answers := 0, createdAt := 9 }],
    answers := [], votes := [], collections := [], tagQuestions := [], tags := [],
    users := [], interactions := [], nextId := 10 }

/-- Concrete instance of claim C9: two questions, page 1 and page 2 of size 1. -/
theorem getQuestions_pagination_witness :
    (1 ≤ 1) ∧
    ((dbPag.questions.map QuestionDoc.id).Nodup) ∧
    ((∀ a ∈ (getQuestions dbPag 1 1 none .newest).1,
       ∀ b ∈ (getQuestions dbPag 2 1 none .newest).1, a.id ≠ b.id) ∧
    ((getQuestions dbPag 1 1 none .newest).2 = false ↔
       (filteredQuestions dbPag none .newest).length ≤ 1 * 1) ∧
    (QuestionFilter.newest ≠ QuestionFilter.popular →
       List.Sorted (fun a b => newestFirstLe a b = true)
         (getQuestions dbPag 1 1 none .newest).1)) :=
  ⟨by decide, by decide, getQuestions_pagination dbPag none .newest 1 1 (by decide) (by decide)⟩

/-! ## Recommendation Engine (`getRecommendedQuestions`) -/

/-- `{ createdAt: -1 }` on interactions: most recent first. -/
def interactionRecencyLe (a b : InteractionDoc) : Bool :=
  decide (b.createdAt ≤ a.createdAt)

/-- The user's qualifying history: question-target interactions of kind
view/upvote/bookmark/post, most recent first, limited to 50. -/
def qualifyingInteractions (db : DB) (userId : Nat) : List InteractionDoc :=
  ((db.interactions.filter fun i =>
      decide (i.user = userId) && decide (i.actionType = TargetType.question) &&
      (decide (i.action = InteractionAction.view) ||
       decide (i.action = InteractionAction.upvote) ||
       decide (i.action = InteractionAction.bookmark) ||
       decide (i.action = InteractionAction.post))).mergeSort
    interactionRecencyLe).take 50

/-- `interactedQuestionIds`. -/
def recentInteractedIds (db : DB) (userId : Nat) : List Nat :=
  (qualifyingInteractions db userId).map InteractionDoc.actionId

/-- `uniqueTagIds`: the distinct tag ids of the interacted questions
(`[...new Set(allTags)]`). -/
def recentInteractedTagIds (db : DB) (userId : Nat) : List Nat :=
  ((db.questions.filter fun q =>
      (recentInteractedIds db userId).contains q.id).flatMap QuestionDoc.tags).dedup

/-- `{ upvotes: -1, views: -1 }`. -/
def recommendedLe (a b : QuestionDoc) : Bool :=
  decide (b.upvotes < a.upvotes) ||
    (decide (a.upvotes = b.upvotes) && decide (b.views ≤ a.views))

/-- The `recommendedQuery` filter document: not already interacted with, not
self-authored, sharing at least one tag, and matching the optional text query. -/
def recommendedFilter (db : DB) (userId : Nat) (query : Option Name)
    (q : QuestionDoc) : Bool :=
  !((recentInteractedIds db userId).contains q.id) &&
  !(decide (q.author = userId)) &&
  (q.tags.any fun t => (recentInteractedTagIds db userId).contains t) &&
  questionMatchesQuery q query

/-- `getRecommendedQuestions`: filter, count, sort, skip/limit, next-page flag. -/
def getRecommendedQuestions (db : DB) (userId : Nat) (query : Option Name)
    (skip limit : Nat) : List QuestionDoc × Bool :=
  let filtered := db.questions.filter (recommendedFilter db userId query)
  let questions := ((filtered.mergeSort recommendedLe).drop skip).take limit
  (questions, decide (filtered.length > skip + questions.length))

/-- Claim C10: every recommended question is not among the user's recently
interacted question ids, is not authored by the user, and shares at least one
tag with some interacted question; and a user with no qualifying interaction
history receives an empty result set (with no next page), not an error. -/
theorem getRecommendedQuestions_exclusions (db : DB) (userId : Nat)
    (query : Option Name) (skip limit : Nat) :
    (∀ q ∈ (getRecommendedQuestions db userId query skip limit).1,
        q.id ∉ recentInteractedIds db userId ∧
        q.author ≠ userId ∧
        ∃ t ∈ q.tags, ∃ p ∈ db.questions,
          p.id ∈ recentInteractedIds db userId ∧ t ∈ p.tags) ∧
    (qualifyingInteractions db userId = [] →
        (getRecommendedQuestions db userId query skip limit).1 = [] ∧
        (getRecommendedQuestions db userId query skip limit).2 = false) := by
  constructor
  · intro q hq
    have hqf : q ∈ db.questions.filter (recommendedFilter db userId query) :=
      List.mem_mergeSort.mp (List.mem_of_mem_drop (List.mem_of_mem_take hq))
    obtain ⟨hqdb, hfil⟩ := List.mem_filter.mp hqf
    simp only [recommendedFilter, Bool.and_eq_true, Bool.not_eq_true'] at hfil
    obtain ⟨⟨⟨hid, hauthor⟩, htag⟩, -⟩ := hfil
    refine ⟨?_, ?_, ?_⟩
    · intro hmem
      have hc : (recentInteractedIds db userId).contains q.id = true :=
        List.elem_iff.mpr hmem
      rw [hc] at hid
      simp at hid
    · intro he
      simp [he] at hauthor
    · obtain ⟨t, ht, hcont⟩ := List.any_eq_true.mp htag
      have htmem : t ∈ recentInteractedTagIds db userId := List.elem_iff.mp hcont
      have := List.mem_dedup.mp htmem
      obtain ⟨p, hpfil, htp⟩ := List.mem_flatMap.mp this
      obtain ⟨hpdb, hpcont⟩ := List.mem_filter.mp hpfil
      exact ⟨t, ht, p, hpdb, List.elem_iff.mp hpcont, htp⟩
  · intro h0
    have hids : recentInteractedIds db userId = [] := by
      simp [recentInteractedIds, h0]
    have htags : recentInteractedTagIds db userId = [] := by
      simp [recentInteractedTagIds, hids]
    have hfil : db.questions.filter (recommendedFilter db userId query) = [] := by
      refine List.filter_eq_nil_iff.mpr ?_
      intro q _
      simp [recommendedFilter, htags]
    simp [getRecommendedQuestions, hfil]

/-- A store where user 0 has viewed question 1 (tag 7, author 2) and
question 2 (tag 7, author 3) is a candidate. -/
def dbRec : DB :=
  { questions := [{ id := 1, title := [], content := [], author := 2, tags := [7],
                    upvotes := 0, downvotes := 0, views := 0, answers := 0, createdAt := 1 },
                  { id := 2, title := [], content := [], author := 3, tags := [7],
                    upvotes := 0, downvotes := 0, views := 0, answers := 0, createdAt := 2 }],
    answers := [], votes := [], collections := [], tagQuestions := [], tags := [],
    users := [],
    interactions := [{ id := 4, user := 0, action := .view, actionId := 1,
                       actionType := .question, createdAt := 3 }],
    nextId := 20 }

/-- The candidate question (id 2). -/
def qRec : QuestionDoc :=
  { id := 2, title := [], content := [], author := 3, tags := [7],
    upvotes := 0, downvotes := 0, views := 0, answers := 0, createdAt := 2 }

unseal List.merge List.mergeSort in
/-- Concrete instance of claim C10: question 2 is recommended to user 0 and
satisfies all three exclusion/inclusion properties. -/
theorem getRecommendedQuestions_exclusions_witness :
    qRec ∈ (getRecommendedQuestions dbRec 0 none 0 10).1 ∧
    (qRec.id ∉ recentInteractedIds dbRec 0 ∧
     qRec.author ≠ 0 ∧
     ∃ t ∈ qRec.tags, ∃ p ∈ dbRec.questions,
       p.id ∈ recentInteractedIds dbRec 0 ∧ t ∈ p.tags) :=
  ⟨by decide,
    (getRecommendedQuestions_exclusions dbRec 0 none 0 10).1 qRec (by decide)⟩

end DevFlow
